import Mathlib

/-!
Verification development for the RoadSense georeferencing and
priority-aggregation pipeline.

Python floats are modelled as rationals.  Python `round(x, 2)` is modelled as
round-half-up to two decimal places; Python actually rounds half to even, but
the two modes agree at every input that is not an exact half-cent tie, and no
value arising in the statements below is such a tie.  Database rows are
modelled as lists of records, and the external PostGIS spatial functions
(`ST_Distance`, `ST_ClosestPoint`) are modelled as oracle functions supplied
per call, since the repository only issues queries against them.
-/

namespace RoadSense

/-- `Settings` from `priorisation-service/app/core/config.py`: the priority
algorithm weights and thresholds, with the defaults written in the source. -/
structure Settings where
  WEIGHT_SEVERITY : ℚ := 35/100
  WEIGHT_TRAFFIC : ℚ := 25/100
  WEIGHT_DENSITY : ℚ := 20/100
  WEIGHT_AGE : ℚ := 15/100
  WEIGHT_ACCESSIBILITY : ℚ := 5/100
  MIN_PRIORITY_SCORE : ℚ := 0
  HIGH_PRIORITY_THRESHOLD : ℚ := 70
  CRITICAL_PRIORITY_THRESHOLD : ℚ := 85
deriving DecidableEq

/-- The settings object instantiated at module import with no environment
overrides (`settings = Settings()`). -/
def defaultSettings : Settings := {}

/-- Environment overrides that pydantic `BaseSettings` may apply to the five
weight fields when `Settings()` is constructed; `none` means the variable is
absent and the coded default is kept. -/
structure SettingsOverrides where
  WEIGHT_SEVERITY : Option ℚ := none
  WEIGHT_TRAFFIC : Option ℚ := none
  WEIGHT_DENSITY : Option ℚ := none
  WEIGHT_AGE : Option ℚ := none
  WEIGHT_ACCESSIBILITY : Option ℚ := none
deriving DecidableEq

/-- Settings construction as written in `config.py`: each field takes its
override when present, else its default.  The class declares no validator of
any kind, so loading is total — every override assignment is accepted. -/
def loadSettings (ov : SettingsOverrides) : Settings :=
  { WEIGHT_SEVERITY := ov.WEIGHT_SEVERITY.getD (35/100)
    WEIGHT_TRAFFIC := ov.WEIGHT_TRAFFIC.getD (25/100)
    WEIGHT_DENSITY := ov.WEIGHT_DENSITY.getD (20/100)
    WEIGHT_AGE := ov.WEIGHT_AGE.getD (15/100)
    WEIGHT_ACCESSIBILITY := ov.WEIGHT_ACCESSIBILITY.getD (5/100) }

/-- Sum of the five algorithm weights of a settings object. -/
def weightSum (st : Settings) : ℚ :=
  st.WEIGHT_SEVERITY + st.WEIGHT_TRAFFIC + st.WEIGHT_DENSITY +
    st.WEIGHT_AGE + st.WEIGHT_ACCESSIBILITY

/-- Python `round(x, 2)` (modulo the tie mode, see the file comment). -/
def round2 (x : ℚ) : ℚ := ((round (x * 100) : ℤ) : ℚ) / 100

/-- The weighted sum inside `PriorityService.calculate_priority_score`
(`priority_service.py` lines 56-67). -/
def priorityWeightedSum (st : Settings)
    (severity_score traffic_score density_score age_score
      accessibility_score : ℚ) : ℚ :=
  st.WEIGHT_SEVERITY * severity_score +
    st.WEIGHT_TRAFFIC * traffic_score +
    st.WEIGHT_DENSITY * density_score +
    st.WEIGHT_AGE * age_score +
    st.WEIGHT_ACCESSIBILITY * accessibility_score

/-- `PriorityService.calculate_priority_score`: weighted sum, clamped between
`MIN_PRIORITY_SCORE` and `100.0`, rounded to two decimals. -/
def calculate_priority_score (st : Settings)
    (severity_score traffic_score density_score age_score
      accessibility_score : ℚ) : ℚ :=
  round2 (max st.MIN_PRIORITY_SCORE (min 100
    (priorityWeightedSum st severity_score traffic_score density_score
      age_score accessibility_score)))

/-- `PriorityService.get_priority_level` (`priority_service.py` 75-95). -/
def get_priority_level (st : Settings) (priority_score : ℚ) : String :=
  if st.CRITICAL_PRIORITY_THRESHOLD ≤ priority_score then "CRITICAL"
  else if st.HIGH_PRIORITY_THRESHOLD ≤ priority_score then "HIGH"
  else if (50 : ℚ) ≤ priority_score then "MEDIUM"
  else "LOW"

/-- The `road_multipliers` cost table in `PriorityService.estimate_cost`
(`priority_service.py` 115-132), with `dict.get` default `1.0`. -/
def road_cost_multiplier (road_type : String) : ℚ :=
  if road_type = "motorway" then 5/2
  else if road_type = "trunk" then 2
  else if road_type = "primary" then 9/5
  else if road_type = "secondary" then 3/2
  else if road_type = "tertiary" then 6/5
  else if road_type = "residential" then 1
  else if road_type = "unclassified" then 4/5
  else 1

/-- `PriorityService.estimate_cost`: `500 × count × (1 + avg/10) × multiplier`,
rounded to two decimals. -/
def estimate_cost (defect_count : ℕ) (avg_severity : ℚ) (road_type : String) : ℚ :=
  round2 (500 * (defect_count : ℚ) * (1 + avg_severity / 10) *
    road_cost_multiplier road_type)

/-- The `road_multipliers` duration table in `PriorityService.estimate_duration`
(`priority_service.py` 152-169), with `dict.get` default `1.0`. -/
def road_duration_multiplier (road_type : String) : ℚ :=
  if road_type = "motorway" then 2
  else if road_type = "trunk" then 9/5
  else if road_type = "primary" then 3/2
  else if road_type = "secondary" then 6/5
  else if road_type = "tertiary" then 1
  else if road_type = "residential" then 4/5
  else if road_type = "unclassified" then 4/5
  else 1

/-- `PriorityService.estimate_duration`: `max(1, int(4 × count × mult / 8))`.
The hours total is nonnegative, so Python `int` truncation is the floor. -/
def estimate_duration (defect_count : ℕ) (road_type : String) : ℤ :=
  max 1 ⌊4 * (defect_count : ℚ) * road_duration_multiplier road_type / 8⌋

/-- The `traffic_importance` table in `compute_segment_priority`
(`priority_service.py` 225-242), with `dict.get` default `50`. -/
def traffic_importance (road_type : String) : ℚ :=
  if road_type = "motorway" then 100
  else if road_type = "trunk" then 90
  else if road_type = "primary" then 80
  else if road_type = "secondary" then 60
  else if road_type = "tertiary" then 40
  else if road_type = "residential" then 30
  else if road_type = "unclassified" then 20
  else 50

/-- One defect dictionary as consumed by `compute_segment_priority`.  A `none`
field models a missing key, to which the source applies a `dict.get`
default. -/
structure DefectDict where
  severity_score : Option ℚ := none
  age_days : Option ℚ := none
  road_name : Option String := none
  road_type : Option String := none
  segment_length_meters : Option ℚ := none
deriving DecidableEq

/-- Python `max(severities)` on a nonempty list (head supplied separately). -/
def listMax (x : ℚ) (xs : List ℚ) : ℚ := xs.foldl max x

/-- The values `compute_segment_priority` derives from a defect list before
touching the store (`priority_service.py` 202-298). -/
structure PriorityFields where
  severity_score : ℚ
  traffic_score : ℚ
  density_score : ℚ
  age_score : ℚ
  accessibility_score : ℚ
  total_priority_score : ℚ
  priority_level : String
  defect_count : ℕ
  avg_severity : ℚ
  max_severity : ℚ
  road_name : String
  road_type : String
  estimated_cost : ℚ
  estimated_duration_days : ℤ
deriving DecidableEq

/-- The pure derivation part of `compute_segment_priority`
(`priority_service.py` 202-298): defect metrics, the five component scores,
the weighted total, level, cost and duration.  Returns `none` on an empty
defect list (the source raises `ValueError` there). -/
def computePriorityFields (st : Settings) : List DefectDict → Option PriorityFields
  | [] => none
  | d0 :: rest =>
    let defects := d0 :: rest
    let defect_count := defects.length
    let severities := defects.map (fun d => d.severity_score.getD 5)
    let avg_severity := severities.sum / (severities.length : ℚ)
    let max_severity := listMax (d0.severity_score.getD 5)
      (rest.map (fun d => d.severity_score.getD 5))
    let severity_score := avg_severity / 10 * 100
    let road_type := d0.road_type.getD "residential"
    let traffic_score := traffic_importance road_type
    let segment_length := d0.segment_length_meters.getD 100 / 1000
    let density := (defect_count : ℚ) / max segment_length (1/10)
    let density_score := min 100 (density * 20)
    let ages := defects.map (fun d => d.age_days.getD 0)
    let avg_age_days := ages.sum / (ages.length : ℚ)
    let age_score := min 100 (avg_age_days / 365 * 100)
    let accessibility_score : ℚ := 50
    let total := calculate_priority_score st severity_score traffic_score
      density_score age_score accessibility_score
    some
      { severity_score := severity_score
        traffic_score := traffic_score
        density_score := density_score
        age_score := age_score
        accessibility_score := accessibility_score
        total_priority_score := total
        priority_level := get_priority_level st total
        defect_count := defect_count
        avg_severity := avg_severity
        max_severity := max_severity
        road_name := d0.road_name.getD "Unknown"
        road_type := road_type
        estimated_cost := estimate_cost defect_count avg_severity road_type
        estimated_duration_days := estimate_duration defect_count road_type }

/-- A stored `PriorityScore` row (`priorisation-service/app/database/models.py`
lines 17-73), restricted to the fields the service reads or writes; the
database-generated UUID and timestamps are not consulted by any property
below. -/
structure PriorityScoreRec where
  segment_id : ℤ
  severity_score : ℚ
  traffic_score : ℚ
  density_score : ℚ
  age_score : ℚ
  accessibility_score : ℚ
  total_priority_score : ℚ
  priority_level : String
  defect_count : ℕ
  avg_severity : ℚ
  max_severity : ℚ
  road_name : String
  road_type : String
  estimated_cost : ℚ
  estimated_duration_days : ℤ
deriving DecidableEq

/-- Failure outcomes of `compute_segment_priority`: the explicit
`ValueError("No defects provided for segment")`, and the
`MultipleResultsFound` that `scalar_one_or_none` raises when more than one row
matches the segment id. -/
inductive PriorityError where
  | noDefects
  | multipleRows
deriving DecidableEq

/-- The record built on the insert branch of `compute_segment_priority`
(`priority_service.py` 343-379): every field is taken from the freshly
derived values. -/
def newPriorityRec (segment_id : ℤ) (f : PriorityFields) : PriorityScoreRec :=
  { segment_id := segment_id
    severity_score := f.severity_score
    traffic_score := f.traffic_score
    density_score := f.density_score
    age_score := f.age_score
    accessibility_score := f.accessibility_score
    total_priority_score := f.total_priority_score
    priority_level := f.priority_level
    defect_count := f.defect_count
    avg_severity := f.avg_severity
    max_severity := f.max_severity
    road_name := f.road_name
    road_type := f.road_type
    estimated_cost := f.estimated_cost
    estimated_duration_days := f.estimated_duration_days }

/-- The update branch of `compute_segment_priority` (`priority_service.py`
310-341): all derived fields of the existing row are overwritten in place;
`road_name` and `road_type` are left as stored (the source does not assign
them on this branch). -/
def updatePriorityRec (r : PriorityScoreRec) (f : PriorityFields) : PriorityScoreRec :=
  { r with
    severity_score := f.severity_score
    traffic_score := f.traffic_score
    density_score := f.density_score
    age_score := f.age_score
    accessibility_score := f.accessibility_score
    total_priority_score := f.total_priority_score
    priority_level := f.priority_level
    defect_count := f.defect_count
    avg_severity := f.avg_severity
    max_severity := f.max_severity
    estimated_cost := f.estimated_cost
    estimated_duration_days := f.estimated_duration_days }

/-- `PriorityService.compute_segment_priority` (`priority_service.py`
182-387) over a list-of-rows store: derive the fields, look up the row with
this `segment_id` (`scalar_one_or_none`: zero rows insert, one row is updated
in place, several rows raise), and return the resulting row together with the
store after commit. -/
def compute_segment_priority (st : Settings) (store : List PriorityScoreRec)
    (segment_id : ℤ) (defects : List DefectDict) :
    Except PriorityError (PriorityScoreRec × List PriorityScoreRec) :=
  match computePriorityFields st defects with
  | none => .error .noDefects
  | some f =>
    match store.filter (fun r => r.segment_id == segment_id) with
    | [] =>
      let r := newPriorityRec segment_id f
      .ok (r, store ++ [r])
    | [r0] =>
      let r := updatePriorityRec r0 f
      .ok (r, store.map (fun x => if x.segment_id == segment_id then r else x))
    | _ => .error .multipleRows

/-- A road-network row (`georef-service/app/database/models.py`), restricted
to the columns the matching query selects.  The line geometry itself lives in
PostGIS; its effect enters through the distance and closest-point oracles
below. -/
structure RoadSegment where
  id : ℤ
  osm_id : ℤ
  name : Option String := none
  road_type : String := "residential"
deriving DecidableEq

/-- A latitude/longitude pair. -/
structure GeoPoint where
  latitude : ℚ
  longitude : ℚ
deriving DecidableEq

/-- Input of one `georeference_defect` call (`georef_service.py` 27-36). -/
structure GeorefInput where
  detection_id : String
  latitude : ℚ
  longitude : ℚ
  defect_type : Option String := none
  severity_score : Option ℚ := none
  heading : Option ℚ := none
deriving DecidableEq

/-- A persisted `GeoreferencedDefect` row as `georeference_defect` writes it
(`georef_service.py` 88-100 and 125-133); `none` models a column left NULL. -/
structure GeorefDefectRec where
  detection_id : String
  segment_id : Option ℤ
  gps_location : GeoPoint
  matched_location : Option GeoPoint
  distance_to_road : Option ℚ
  confidence : Option ℚ
  heading : Option ℚ
  defect_type : Option String
  severity_score : Option ℚ
  is_matched : Bool
  needs_review : Bool
deriving DecidableEq

/-- `GeoRefService._calculate_confidence` (`georef_service.py` 282-293). -/
def calculate_confidence (distance : ℚ) : ℚ :=
  if distance ≤ 5 then 1
  else if distance ≤ 15 then 9/10
  else if distance ≤ 30 then 7/10
  else if distance ≤ 50 then 1/2
  else 3/10

/-- First minimal element of a list under `dist`, earliest on ties.  This is
the row an `ORDER BY distance LIMIT 1` query yields under one admissible
database row ordering; the query adds no further sort key. -/
def firstMinBy (dist : RoadSegment → ℚ) : List RoadSegment → Option RoadSegment
  | [] => none
  | s :: rest =>
    match firstMinBy dist rest with
    | none => some s
    | some b => if dist b < dist s then some b else some s

/-- The road-matching query of `georeference_defect` (`georef_service.py`
57-84): keep the segments whose projected distance to the point is within the
threshold (`ST_DWithin`), order by that distance, take the first row.  `dist`
is the PostGIS `ST_Distance` oracle for the query point, fixed per call. -/
def queryNearest (segs : List RoadSegment) (dist : RoadSegment → ℚ)
    (threshold : ℚ) : Option RoadSegment :=
  firstMinBy dist (segs.filter (fun s => decide (dist s ≤ threshold)))

/-- The rows that `ORDER BY distance LIMIT 1` may return once database tie
order is left unspecified: any in-threshold candidate of minimal distance.
The deterministic `queryNearest` realises one such choice. -/
def canReturn (segs : List RoadSegment) (dist : RoadSegment → ℚ)
    (threshold : ℚ) (s : RoadSegment) : Prop :=
  s ∈ segs ∧ dist s ≤ threshold ∧
    ∀ s' ∈ segs, dist s' ≤ threshold → dist s ≤ dist s'

/-- `GeoRefService.georeference_defect` (`georef_service.py` 27-147): run the
matching query; on a hit persist a matched record with snapped point,
distance, confidence and `needs_review = distance > threshold × 0.6`; on a
miss persist an unmatched record with NULL match fields and
`needs_review = True`.  `closest` is the `ST_ClosestPoint` oracle for the
query point. -/
def georeference_defect (segs : List RoadSegment) (dist : RoadSegment → ℚ)
    (closest : RoadSegment → GeoPoint) (threshold : ℚ)
    (inp : GeorefInput) : GeorefDefectRec :=
  match queryNearest segs dist threshold with
  | some road =>
    { detection_id := inp.detection_id
      segment_id := some road.id
      gps_location := { latitude := inp.latitude, longitude := inp.longitude }
      matched_location := some (closest road)
      distance_to_road := some (dist road)
      confidence := some (calculate_confidence (dist road))
      heading := inp.heading
      defect_type := inp.defect_type
      severity_score := inp.severity_score
      is_matched := true
      needs_review := decide (threshold * (6/10) < dist road) }
  | none =>
    { detection_id := inp.detection_id
      segment_id := none
      gps_location := { latitude := inp.latitude, longitude := inp.longitude }
      matched_location := none
      distance_to_road := none
      confidence := none
      heading := inp.heading
      defect_type := inp.defect_type
      severity_score := inp.severity_score
      is_matched := false
      needs_review := true }

/-- `GeoRefService.batch_georeference` (`georef_service.py` 153-181): iterate
the inputs in order, calling the per-item operation; the per-item
`georeference_defect` re-raises any database or spatial failure
(`georef_service.py` 149-151), and the loop has no handler, so the first
error propagates out of the batch.  The loop is parametric in the per-item
operation. -/
def batch_georeference {δ ε ρ : Type} (georefOne : δ → Except ε ρ) :
    List δ → Except ε (List ρ)
  | [] => .ok []
  | d :: ds =>
    match georefOne d with
    | .error e => .error e
    | .ok r =>
      match batch_georeference georefOne ds with
      | .error e => .error e
      | .ok rs => .ok (r :: rs)

/-- The batch-route summary (`georef_routes.py` 76-81). -/
structure BatchSummary where
  total : ℕ
  matched : ℕ
  unmatched : ℕ
deriving DecidableEq

/-- Summary built by the batch route over the per-item results: total count
and counts of matched versus unmatched outcomes. -/
def batchSummary (results : List GeorefDefectRec) : BatchSummary :=
  { total := results.length
    matched := results.countP (fun r => r.is_matched)
    unmatched := results.countP (fun r => !r.is_matched) }

/-- The `dict.get` defaults of `compute_segment_priority` made explicit on a
defect dictionary: a missing `severity_score` becomes `5.0`, a missing
`age_days` becomes `0`, a missing `road_name` becomes `"Unknown"`, a missing
`road_type` becomes `"residential"`, and a missing `segment_length_meters`
becomes `100`. -/
def fillDefaults (d : DefectDict) : DefectDict :=
  { severity_score := some (d.severity_score.getD 5)
    age_days := some (d.age_days.getD 0)
    road_name := some (d.road_name.getD "Unknown")
    road_type := some (d.road_type.getD "residential")
    segment_length_meters := some (d.segment_length_meters.getD 100) }

/-- Scenario D of the specification: three defects of severities 8, 6 and 7,
age 0 days, on a residential segment of 200 meters. -/
def scenarioD : List DefectDict :=
  [{ severity_score := some 8, age_days := some 0,
     road_type := some "residential", segment_length_meters := some 200 },
   { severity_score := some 6, age_days := some 0,
     road_type := some "residential", segment_length_meters := some 200 },
   { severity_score := some 7, age_days := some 0,
     road_type := some "residential", segment_length_meters := some 200 }]

/-- The priority fields Scenario D derives (used as a concrete stored row). -/
def scenarioFields : PriorityFields :=
  { severity_score := 70, traffic_score := 30, density_score := 100,
    age_score := 0, accessibility_score := 50, total_priority_score := 109/2,
    priority_level := "MEDIUM", defect_count := 3, avg_severity := 7,
    max_severity := 8, road_name := "Unknown", road_type := "residential",
    estimated_cost := 2550, estimated_duration_days := 1 }

/-- The stored row the first Scenario D computation inserts for segment 7. -/
def scenarioRec : PriorityScoreRec := newPriorityRec 7 scenarioFields

/-- An override assignment pydantic would accept although the resulting
weights sum to 1.65 rather than 1.0. -/
def badOverrides : SettingsOverrides := { WEIGHT_SEVERITY := some 1 }

/-- A concrete road segment used in concrete instances. -/
def segA : RoadSegment := { id := 1, osm_id := 11 }

/-- A second concrete road segment, distinct from `segA`. -/
def segB : RoadSegment := { id := 2, osm_id := 22 }

/-- A constant closest-point oracle for concrete instances. -/
def closest0 : RoadSegment → GeoPoint := fun _ => { latitude := 0, longitude := 0 }

/-- A distance oracle placing every segment 80 meters from the point. -/
def dist80 : RoadSegment → ℚ := fun _ => 80

/-- A distance oracle placing every segment 10 meters from the point (an
exact tie between distinct segments). -/
def dist10 : RoadSegment → ℚ := fun _ => 10

/-- A distance oracle with pairwise distinct distances for `segA`/`segB`. -/
def distAB : RoadSegment → ℚ := fun s => if s.id = 1 then 3 else 20

/-- A concrete georeferencing input. -/
def inp0 : GeorefInput :=
  { detection_id := "det-1", latitude := 48.8566, longitude := 2.3522 }

/-- A concrete per-item georeferencing operation whose first input fails with
a spatial-store error, as `georeference_defect` does when the database raises
(`georef_service.py` 149-151). -/
def georefOneFlaky (n : ℕ) : Except String GeorefDefectRec :=
  if n = 0 then .error "spatial store unreachable"
  else .ok (georeference_defect [segA] distAB closest0 50 inp0)

/-- A concrete per-item georeferencing operation that always succeeds. -/
def georefOneOk (_ : ℕ) : Except String GeorefDefectRec :=
  .ok (georeference_defect [segA] distAB closest0 50 inp0)

/-- A defect dictionary with every key missing. -/
def dMissing : DefectDict := {}

/-- A defect dictionary carrying only a motorway road type. -/
def dTailMotorway : DefectDict := { road_type := some "motorway" }

/-- A defect dictionary carrying only a residential road type. -/
def dTailResidential : DefectDict := { road_type := some "residential" }

theorem round2_mono {x y : ℚ} (h : x ≤ y) : round2 x ≤ round2 y := by
  unfold round2
  have hr : round (x * 100) ≤ round (y * 100) := by
    rw [round_eq, round_eq]
    exact Int.floor_le_floor (by linarith)
  have h100 : (0 : ℚ) < 100 := by norm_num
  exact (div_le_div_iff_of_pos_right h100).mpr (by exact_mod_cast hr)

theorem round2_eq_self {x : ℚ} {n : ℤ} (h : x * 100 = (n : ℚ)) : round2 x = x := by
  rw [round2, h, round_intCast]
  linarith

theorem round2_zero : round2 0 = 0 :=
  round2_eq_self (n := 0) (by norm_num)

theorem round2_hundred : round2 100 = 100 :=
  round2_eq_self (n := 10000) (by norm_num)

theorem calculate_priority_score_mono (st : Settings)
    {s1 t1 d1 a1 c1 s2 t2 d2 a2 c2 : ℚ}
    (h : priorityWeightedSum st s1 t1 d1 a1 c1 ≤
      priorityWeightedSum st s2 t2 d2 a2 c2) :
    calculate_priority_score st s1 t1 d1 a1 c1 ≤
      calculate_priority_score st s2 t2 d2 a2 c2 := by
  unfold calculate_priority_score
  exact round2_mono (max_le_max (le_refl _) (min_le_min (le_refl _) h))

theorem scenarioD_fields :
    computePriorityFields defaultSettings scenarioD = some scenarioFields := by
  have h1 : round2 (109/2 : ℚ) = 109/2 := round2_eq_self (n := 5450) (by norm_num)
  have h2 : round2 (2550 : ℚ) = 2550 := round2_eq_self (n := 255000) (by norm_num)
  have ht : traffic_importance "residential" = 30 := rfl
  have htot : calculate_priority_score defaultSettings 70 30 100 0 50 = 109/2 := by
    rw [calculate_priority_score, priorityWeightedSum]
    norm_num [defaultSettings, min_def, max_def, h1]
  have hlev : get_priority_level defaultSettings (109/2) = "MEDIUM" := by
    norm_num [get_priority_level, defaultSettings]
  have hcost : estimate_cost 3 7 "residential" = 2550 := by
    have hc : road_cost_multiplier "residential" = 1 := rfl
    rw [estimate_cost, hc]
    norm_num [h2]
  have hdur : estimate_duration 3 "residential" = 1 := by
    have hd : road_duration_multiplier "residential" = 4/5 := rfl
    rw [estimate_duration, hd]
    have hq : (4 : ℚ) * ((3 : ℕ) : ℚ) * (4/5) / 8 = 6/5 := by norm_num
    rw [hq]
    have hf : (⌊(6/5 : ℚ)⌋ : ℤ) = 1 := by
      rw [Int.floor_eq_iff]
      norm_num
    rw [hf]
    exact max_self 1
  simp only [computePriorityFields, scenarioD, List.map_cons, List.map_nil, List.sum_cons,
    List.sum_nil, List.length_cons, List.length_nil, Option.getD_some, listMax, List.foldl]
  norm_num [min_def, max_def, ht, htot, hlev, hcost, hdur, scenarioFields,
    PriorityFields.mk.injEq]

theorem map_ite_of_filter_nil {p : PriorityScoreRec → Bool} {a : PriorityScoreRec} :
    ∀ {l : List PriorityScoreRec}, l.filter p = [] →
      l.map (fun x => if p x then a else x) = l := by
  intro l
  induction l with
  | nil => intro _; rfl
  | cons x xs ih =>
    intro h
    rw [List.filter_cons] at h
    by_cases hx : p x
    · rw [if_pos hx] at h
      exact absurd h (List.cons_ne_nil _ _)
    · rw [if_neg hx] at h
      simp only [List.map_cons, if_neg hx, ih h]

theorem map_ite_of_filter_single {p : PriorityScoreRec → Bool} {a : PriorityScoreRec} :
    ∀ {l : List PriorityScoreRec}, l.filter p = [a] →
      l.map (fun x => if p x then a else x) = l := by
  intro l
  induction l with
  | nil => intro h; exact absurd h (by simp)
  | cons x xs ih =>
    intro h
    rw [List.filter_cons] at h
    by_cases hx : p x
    · rw [if_pos hx] at h
      obtain ⟨hxa, hnil⟩ := List.cons_eq_cons.mp h
      simp only [List.map_cons, if_pos hx, hxa, map_ite_of_filter_nil hnil, ite_self]
    · rw [if_neg hx] at h
      simp only [List.map_cons, if_neg hx, ih h]

theorem filter_map_ite_of_filter_single {p : PriorityScoreRec → Bool}
    {a b : PriorityScoreRec} (hb : p b = true) :
    ∀ {l : List PriorityScoreRec}, l.filter p = [a] →
      (l.map (fun x => if p x then b else x)).filter p = [b] := by
  intro l
  induction l with
  | nil => intro h; exact absurd h (by simp)
  | cons x xs ih =>
    intro h
    rw [List.filter_cons] at h
    by_cases hx : p x
    · rw [if_pos hx] at h
      obtain ⟨hxa, hnil⟩ := List.cons_eq_cons.mp h
      have hxs : xs.map (fun x => if p x then b else x) = xs :=
        map_ite_of_filter_nil (a := b) hnil
      simp only [List.map_cons, if_pos hx, hxs, List.filter_cons, hb, if_true,
        hnil]
    · rw [if_neg hx] at h
      simp only [List.map_cons, if_neg hx, List.filter_cons, hx, ih h]
      simp [hx]

theorem updatePriorityRec_new (i : ℤ) (f : PriorityFields) :
    updatePriorityRec (newPriorityRec i f) f = newPriorityRec i f := rfl

theorem updatePriorityRec_idem (r : PriorityScoreRec) (f : PriorityFields) :
    updatePriorityRec (updatePriorityRec r f) f = updatePriorityRec r f := rfl

theorem firstMinBy_eq_none {dist : RoadSegment → ℚ} {l : List RoadSegment}
    (h : firstMinBy dist l = none) : l = [] := by
  cases l with
  | nil => rfl
  | cons s rest =>
    rw [firstMinBy] at h
    cases hr : firstMinBy dist rest with
    | none => simp only [hr] at h; exact Option.noConfusion h
    | some c =>
      simp only [hr] at h
      by_cases hc : dist c < dist s
      · rw [if_pos hc] at h; exact Option.noConfusion h
      · rw [if_neg hc] at h; exact Option.noConfusion h

theorem firstMinBy_mem {dist : RoadSegment → ℚ} :
    ∀ {l : List RoadSegment} {b : RoadSegment},
      firstMinBy dist l = some b → b ∈ l := by
  intro l
  induction l with
  | nil => intro b h; exact Option.noConfusion h
  | cons s rest ih =>
    intro b h
    rw [firstMinBy] at h
    cases hr : firstMinBy dist rest with
    | none =>
      simp only [hr] at h
      injection h with h
      exact h ▸ List.mem_cons_self s rest
    | some c =>
      simp only [hr] at h
      by_cases hc : dist c < dist s
      · rw [if_pos hc] at h
        injection h with h
        exact List.mem_cons_of_mem s (h ▸ ih hr)
      · rw [if_neg hc] at h
        injection h with h
        exact h ▸ List.mem_cons_self s rest

theorem firstMinBy_le {dist : RoadSegment → ℚ} :
    ∀ {l : List RoadSegment} {b : RoadSegment},
      firstMinBy dist l = some b → ∀ x ∈ l, dist b ≤ dist x := by
  intro l
  induction l with
  | nil => intro b h; exact Option.noConfusion h
  | cons s rest ih =>
    intro b h x hx
    rw [firstMinBy] at h
    cases hr : firstMinBy dist rest with
    | none =>
      simp only [hr] at h
      injection h with h
      subst h
      rcases List.mem_cons.mp hx with hxs | hx'
      · exact hxs ▸ le_refl _
      · rw [firstMinBy_eq_none hr] at hx'
        exact absurd hx' (List.not_mem_nil x)
    | some c =>
      simp only [hr] at h
      by_cases hc : dist c < dist s
      · rw [if_pos hc] at h
        injection h with h
        subst h
        rcases List.mem_cons.mp hx with hxs | hx'
        · exact hxs ▸ le_of_lt hc
        · exact ih hr x hx'
      · rw [if_neg hc] at h
        injection h with h
        subst h
        rcases List.mem_cons.mp hx with hxs | hx'
        · exact hxs ▸ le_refl _
        · exact le_trans (not_lt.mp hc) (ih hr x hx')

theorem queryNearest_canReturn {segs : List RoadSegment} {dist : RoadSegment → ℚ}
    {T : ℚ} {b : RoadSegment} (h : queryNearest segs dist T = some b) :
    canReturn segs dist T b := by
  unfold queryNearest at h
  have hmem := firstMinBy_mem h
  have hmin := firstMinBy_le h
  rw [List.mem_filter] at hmem
  refine ⟨hmem.1, by simpa using hmem.2, ?_⟩
  intro s' hs' hle
  exact hmin s' (List.mem_filter.mpr ⟨hs', by simpa using hle⟩)

theorem queryNearest_eq_none {segs : List RoadSegment} {dist : RoadSegment → ℚ}
    {T : ℚ} (h : ∀ s ∈ segs, T < dist s) : queryNearest segs dist T = none := by
  unfold queryNearest
  have hfil : segs.filter (fun s => decide (dist s ≤ T)) = [] := by
    rw [List.filter_eq_nil_iff]
    intro a ha
    simpa using not_le.mpr (h a ha)
  rw [hfil]
  rfl

theorem countP_matched_add_not (rs : List GeorefDefectRec) :
    rs.countP (fun r => r.is_matched) + rs.countP (fun r => !r.is_matched) =
      rs.length := by
  induction rs with
  | nil => rfl
  | cons r rest ih =>
    by_cases h : r.is_matched
    · simp [List.countP_cons, h]
      omega
    · simp only [Bool.not_eq_true] at h
      simp [List.countP_cons, h]
      omega

theorem batch_all_ok {δ ε : Type} (f : δ → Except ε GeorefDefectRec) :
    ∀ ds : List δ, (∀ d ∈ ds, (f d).isOk = true) →
      ∃ rs : List GeorefDefectRec,
        batch_georeference f ds = .ok rs ∧ rs.length = ds.length := by
  intro ds
  induction ds with
  | nil => intro _; exact ⟨[], rfl, rfl⟩
  | cons d rest ih =>
    intro hall
    have hd := hall d (List.mem_cons_self d rest)
    cases hfd : f d with
    | error e =>
      rw [hfd] at hd
      exact absurd hd (by simp [Except.isOk, Except.toBool])
    | ok r =>
      obtain ⟨rs, hrs, hlen⟩ := ih (fun x hx => hall x (List.mem_cons_of_mem d hx))
      refine ⟨r :: rs, ?_, by simp [hlen]⟩
      simp only [batch_georeference, hfd, hrs]

theorem firstScenarioCall :
    compute_segment_priority defaultSettings [] 7 scenarioD =
      .ok (scenarioRec, [scenarioRec]) := by
  simp only [compute_segment_priority, scenarioD_fields]
  rfl

/-- C1: calling `compute_segment_priority` twice in a row with the same
segment id and an identical non-empty defect list yields a priority row with
identical component scores, total score, level, cost and duration (here: the
very same row), and leaves exactly one stored row for that segment id — the
second call overwrites the first row in place rather than inserting a
duplicate. -/
theorem C1_recompute_upserts_in_place (st : Settings)
    (store : List PriorityScoreRec) (segid : ℤ) (defects : List DefectDict)
    (hne : defects ≠ []) (r1 : PriorityScoreRec) (s1 : List PriorityScoreRec)
    (h1 : compute_segment_priority st store segid defects = .ok (r1, s1)) :
    compute_segment_priority st s1 segid defects = .ok (r1, s1) ∧
      (s1.filter (fun r => r.segment_id == segid)).length = 1 := by
  cases hf : computePriorityFields st defects with
  | none =>
    simp only [compute_segment_priority, hf] at h1
    exact Except.noConfusion h1
  | some f =>
    simp only [compute_segment_priority, hf] at h1
    cases hfl : store.filter (fun r => r.segment_id == segid) with
    | nil =>
      rw [hfl] at h1
      simp only [Except.ok.injEq, Prod.mk.injEq] at h1
      obtain ⟨hr1, hs1⟩ := h1
      have hpred : (fun r : PriorityScoreRec => r.segment_id == segid) r1 = true := by
        rw [← hr1]; simp [newPriorityRec]
      have hs1f : s1.filter (fun r => r.segment_id == segid) = [r1] := by
        rw [← hs1, hr1, List.filter_append, hfl]
        simp [hpred]
      refine ⟨?_, by rw [hs1f]; rfl⟩
      simp only [compute_segment_priority, hf, hs1f]
      rw [← hr1] at hs1f ⊢
      rw [updatePriorityRec_new, map_ite_of_filter_single hs1f]
    | cons r0 rest =>
      cases rest with
      | nil =>
        rw [hfl] at h1
        simp only [Except.ok.injEq, Prod.mk.injEq] at h1
        obtain ⟨hr1, hs1⟩ := h1
        have hpred0 : (fun r : PriorityScoreRec => r.segment_id == segid) r0 = true := by
          have hmem : r0 ∈ store.filter (fun r => r.segment_id == segid) := by
            rw [hfl]; exact List.mem_cons_self r0 []
          exact (List.mem_filter.mp hmem).2
        have hpred1 : (fun r : PriorityScoreRec => r.segment_id == segid) r1 = true := by
          rw [← hr1]; simpa [updatePriorityRec] using hpred0
        have hs1f : s1.filter (fun r => r.segment_id == segid) = [r1] := by
          rw [← hs1, hr1]
          exact filter_map_ite_of_filter_single hpred1 hfl
        refine ⟨?_, by rw [hs1f]; rfl⟩
        simp only [compute_segment_priority, hf, hs1f]
        rw [← hr1] at hs1f ⊢
        rw [updatePriorityRec_idem, map_ite_of_filter_single hs1f]
      | cons r0' rest' =>
        rw [hfl] at h1
        simp at h1

/-- Witness for C1: the Scenario D defect list computed for segment 7 against
an empty store, then recomputed against the resulting store — same row, one
stored record. -/
theorem C1_witness :
    compute_segment_priority defaultSettings [scenarioRec] 7 scenarioD =
        .ok (scenarioRec, [scenarioRec]) ∧
      (([scenarioRec] : List PriorityScoreRec).filter
        (fun r => r.segment_id == 7)).length = 1 :=
  C1_recompute_upserts_in_place defaultSettings [] 7 scenarioD
    (by simp [scenarioD]) scenarioRec [scenarioRec] firstScenarioCall

/-- C2 counterexample: with a per-item operation that fails on the first
input, the batch aborts with that error, so no result list covering every
item is returned — a failure on one item does abort the batch. -/
theorem C2_counterexample :
    ¬ ∃ rs : List GeorefDefectRec,
        batch_georeference georefOneFlaky [0, 1] = .ok rs ∧ rs.length = 2 := by
  rintro ⟨rs, h, -⟩
  have heval : batch_georeference georefOneFlaky [0, 1] =
      .error "spatial store unreachable" := rfl
  rw [heval] at h
  exact Except.noConfusion h

/-- C2 amended: `batch_georeference` processes the inputs sequentially; when
every per-item call succeeds, each item's outcome appears in the returned
results and the route summary's matched and unmatched counts add up to the
total, but the loop has no per-item error isolation — the first per-item
failure aborts the whole batch with that error, and later items are not
reported. -/
theorem C2_batch_sequential_no_isolation {δ ε : Type}
    (f : δ → Except ε GeorefDefectRec) :
    (∀ ds : List δ, (∀ d ∈ ds, (f d).isOk = true) →
      ∃ rs : List GeorefDefectRec, batch_georeference f ds = .ok rs ∧
        rs.length = ds.length ∧
        (batchSummary rs).matched + (batchSummary rs).unmatched =
          (batchSummary rs).total) ∧
    (∀ (pre : List δ) (d : δ) (post : List δ) (e : ε),
      (∀ x ∈ pre, (f x).isOk = true) → f d = .error e →
        batch_georeference f (pre ++ d :: post) = .error e) := by
  constructor
  · intro ds hall
    obtain ⟨rs, hrs, hlen⟩ := batch_all_ok f ds hall
    exact ⟨rs, hrs, hlen, countP_matched_add_not rs⟩
  · intro pre
    induction pre with
    | nil =>
      intro d post e _ hfd
      simp only [List.nil_append, batch_georeference, hfd]
    | cons x xs ih =>
      intro d post e hall hfd
      have hx := hall x (List.mem_cons_self x xs)
      cases hfx : f x with
      | error e' =>
        rw [hfx] at hx
        exact absurd hx (by simp [Except.isOk, Except.toBool])
      | ok r =>
        have hrec := ih d post e (fun y hy => hall y (List.mem_cons_of_mem x hy)) hfd
        simp only [List.cons_append, batch_georeference, hfx, List.append_eq, hrec]

/-- Witness for C2 amended: a two-item batch whose per-item calls all succeed
returns one outcome per item with a consistent summary. -/
theorem C2_witness :
    ∃ rs : List GeorefDefectRec,
      batch_georeference georefOneOk [0, 1] = .ok rs ∧
        rs.length = ([0, 1] : List ℕ).length ∧
        (batchSummary rs).matched + (batchSummary rs).unmatched =
          (batchSummary rs).total :=
  (C2_batch_sequential_no_isolation georefOneOk).1 [0, 1] (fun _ _ => rfl)

/-- C3: for every point and positive threshold, if no road segment lies
within the threshold then `georeference_defect` produces an unmatched record
with no segment id, no distance and no snapped point; and whenever a matched
record is produced, its distance to the road is at most the threshold. -/
theorem C3_match_within_threshold (segs : List RoadSegment)
    (dist : RoadSegment → ℚ) (closest : RoadSegment → GeoPoint) (T : ℚ)
    (inp : GeorefInput) (hT : 0 < T) :
    ((∀ s ∈ segs, T < dist s) →
      (georeference_defect segs dist closest T inp).is_matched = false ∧
      (georeference_defect segs dist closest T inp).segment_id = none ∧
      (georeference_defect segs dist closest T inp).distance_to_road = none ∧
      (georeference_defect segs dist closest T inp).matched_location = none) ∧
    ((georeference_defect segs dist closest T inp).is_matched = true →
      ∃ d, (georeference_defect segs dist closest T inp).distance_to_road = some d ∧
        d ≤ T) := by
  constructor
  · intro h
    simp only [georeference_defect, queryNearest_eq_none h]
    exact ⟨trivial, trivial, trivial, trivial⟩
  · intro h
    cases hq : queryNearest segs dist T with
    | none =>
      simp only [georeference_defect, hq] at h
      exact absurd h (by simp)
    | some road =>
      simp only [georeference_defect, hq]
      exact ⟨dist road, rfl, (queryNearest_canReturn hq).2.1⟩

/-- Witness for C3: a single segment 80 meters away with threshold 50 yields
an unmatched record with all match fields null. -/
theorem C3_witness :
    (georeference_defect [segA] dist80 closest0 50 inp0).is_matched = false ∧
    (georeference_defect [segA] dist80 closest0 50 inp0).segment_id = none ∧
    (georeference_defect [segA] dist80 closest0 50 inp0).distance_to_road = none ∧
    (georeference_defect [segA] dist80 closest0 50 inp0).matched_location = none :=
  (C3_match_within_threshold [segA] dist80 closest0 50 inp0 (by norm_num)).1
    (by intro s hs; norm_num [dist80])

/-- C4 counterexample: the matching query is `ORDER BY distance LIMIT 1` with
no further sort key, so when two distinct segments tie at exactly the minimum
distance (here both at 10 m with threshold 50 m) either may be returned — the
returned segment id is not determined, and in particular no stable
lowest-segment-id tie-break exists. -/
theorem C4_counterexample :
    ¬ ∀ s s' : RoadSegment, canReturn [segA, segB] dist10 50 s →
        canReturn [segA, segB] dist10 50 s' → s.id = s'.id := by
  intro h
  have h1 : canReturn [segA, segB] dist10 50 segA :=
    ⟨by simp, by norm_num [dist10], by intro s' hs' hle; norm_num [dist10]⟩
  have h2 : canReturn [segA, segB] dist10 50 segB :=
    ⟨by simp, by norm_num [dist10], by intro s' hs' hle; norm_num [dist10]⟩
  have := h segA segB h1 h2
  simp [segA, segB] at this

/-- C4 amended: every segment the query can return is an in-threshold
candidate at minimal distance, so any two possible results lie at the same
distance, and the match is deterministic whenever distances are pairwise
distinct on the store (no exact tie); with exact ties the code imposes no
tie-break and any minimal candidate may be returned. -/
theorem C4_minimal_and_unique_deterministic (segs : List RoadSegment)
    (dist : RoadSegment → ℚ) (T : ℚ) (s s' : RoadSegment)
    (hs : canReturn segs dist T s) (hs' : canReturn segs dist T s') :
    dist s = dist s' ∧
      ((∀ a ∈ segs, ∀ b ∈ segs, dist a = dist b → a = b) → s = s') := by
  obtain ⟨hmem, hle, hmin⟩ := hs
  obtain ⟨hmem', hle', hmin'⟩ := hs'
  have heq : dist s = dist s' :=
    le_antisymm (hmin s' hmem' hle') (hmin' s hmem hle)
  exact ⟨heq, fun hinj => hinj s hmem s' hmem' heq⟩

/-- Witness for C4 amended: with pairwise distinct distances (3 m and 20 m),
any two possible results agree. -/
theorem C4_witness :
    distAB segA = distAB segA ∧
      ((∀ a ∈ [segA, segB], ∀ b ∈ [segA, segB], distAB a = distAB b → a = b) →
        segA = segA) :=
  C4_minimal_and_unique_deterministic [segA, segB] distAB 50 segA segA
    ⟨by simp, by norm_num [distAB, segA],
     by intro s' hs' hle
        rcases List.mem_cons.mp hs' with rfl | hs''
        · exact le_refl _
        · simp only [List.mem_singleton] at hs''
          subst hs''
          norm_num [distAB, segA, segB]⟩
    ⟨by simp, by norm_num [distAB, segA],
     by intro s' hs' hle
        rcases List.mem_cons.mp hs' with rfl | hs''
        · exact le_refl _
        · simp only [List.mem_singleton] at hs''
          subst hs''
          norm_num [distAB, segA, segB]⟩

/-- C5: the derived confidence is exactly the step function of distance —
at most 5 m gives 1.0, then 0.9 up to 15 m, 0.7 up to 30 m, 0.5 up to 50 m
and 0.3 beyond; it is monotonically non-increasing in distance; and it is
applied exactly when a match exists (the unmatched record stores no
confidence, the matched record stores the step function of its distance). -/
theorem C5_confidence_step_antitone (d d' : ℚ) (segs : List RoadSegment)
    (dist : RoadSegment → ℚ) (closest : RoadSegment → GeoPoint) (T : ℚ)
    (inp : GeorefInput) :
    (d ≤ 5 → calculate_confidence d = 1) ∧
    (5 < d → d ≤ 15 → calculate_confidence d = 9/10) ∧
    (15 < d → d ≤ 30 → calculate_confidence d = 7/10) ∧
    (30 < d → d ≤ 50 → calculate_confidence d = 1/2) ∧
    (50 < d → calculate_confidence d = 3/10) ∧
    (d ≤ d' → calculate_confidence d' ≤ calculate_confidence d) ∧
    ((georeference_defect segs dist closest T inp).is_matched = false →
      (georeference_defect segs dist closest T inp).confidence = none) ∧
    ((georeference_defect segs dist closest T inp).is_matched = true →
      ∃ dm, (georeference_defect segs dist closest T inp).distance_to_road = some dm ∧
        (georeference_defect segs dist closest T inp).confidence =
          some (calculate_confidence dm)) := by
  refine ⟨?_, ?_, ?_, ?_, ?_, ?_, ?_, ?_⟩
  · intro h
    rw [calculate_confidence, if_pos h]
  · intro h5 h15
    rw [calculate_confidence, if_neg (by linarith), if_pos h15]
  · intro h15 h30
    rw [calculate_confidence, if_neg (by linarith), if_neg (by linarith), if_pos h30]
  · intro h30 h50
    rw [calculate_confidence, if_neg (by linarith), if_neg (by linarith),
      if_neg (by linarith), if_pos h50]
  · intro h50
    rw [calculate_confidence, if_neg (by linarith), if_neg (by linarith),
      if_neg (by linarith), if_neg (by linarith)]
  · intro hdd
    unfold calculate_confidence
    split_ifs
    all_goals try norm_num
    all_goals linarith
  · intro h
    cases hq : queryNearest segs dist T with
    | none => simp only [georeference_defect, hq]
    | some road =>
      simp only [georeference_defect, hq] at h
      exact absurd h (by simp)
  · intro h
    cases hq : queryNearest segs dist T with
    | none =>
      simp only [georeference_defect, hq] at h
      exact absurd h (by simp)
    | some road =>
      simp only [georeference_defect, hq]
      exact ⟨dist road, rfl, rfl⟩

/-- Witness for C5: confidence 1.0 at 3 m, non-increase from 3 m to 10 m, and
no confidence stored on an unmatched record. -/
theorem C5_witness :
    calculate_confidence 3 = 1 ∧
    calculate_confidence 10 ≤ calculate_confidence 3 ∧
    (georeference_defect [segA] dist80 closest0 50 inp0).confidence = none := by
  have h := C5_confidence_step_antitone 3 10 [segA] dist80 closest0 50 inp0
  exact ⟨h.1 (by norm_num), h.2.2.2.2.2.1 (by norm_num),
    h.2.2.2.2.2.2.1 (by rfl)⟩

/-- C6: every record `georeference_defect` produces satisfies the invariants —
`is_matched` holds exactly when both the segment id and the snapped point are
present; an unmatched record always needs review; and a matched record needs
review exactly when its distance exceeds 60 % of the configured threshold. -/
theorem C6_record_invariants (segs : List RoadSegment) (dist : RoadSegment → ℚ)
    (closest : RoadSegment → GeoPoint) (T : ℚ) (inp : GeorefInput) :
    ((georeference_defect segs dist closest T inp).is_matched = true ↔
      ((georeference_defect segs dist closest T inp).segment_id.isSome = true ∧
        (georeference_defect segs dist closest T inp).matched_location.isSome = true)) ∧
    ((georeference_defect segs dist closest T inp).is_matched = false →
      (georeference_defect segs dist closest T inp).needs_review = true) ∧
    ((georeference_defect segs dist closest T inp).is_matched = true →
      ∃ dm, (georeference_defect segs dist closest T inp).distance_to_road = some dm ∧
        ((georeference_defect segs dist closest T inp).needs_review = true ↔
          T * (6/10) < dm)) := by
  cases hq : queryNearest segs dist T with
  | none =>
    simp only [georeference_defect, hq]
    exact ⟨by simp, fun _ => trivial, by simp⟩
  | some road =>
    simp only [georeference_defect, hq]
    refine ⟨by simp, by simp, fun _ => ⟨dist road, rfl, by simp⟩⟩

/-- Witness for C6: a matched record at 3 m with threshold 50 m — its review
flag is equivalent to 3 exceeding 30 m (hence false). -/
theorem C6_witness :
    ∃ dm, (georeference_defect [segA] distAB closest0 50 inp0).distance_to_road =
        some dm ∧
      ((georeference_defect [segA] distAB closest0 50 inp0).needs_review = true ↔
        (50 : ℚ) * (6/10) < dm) :=
  (C6_record_invariants [segA] distAB closest0 50 inp0).2.2 (by rfl)

/-- C7: for all component inputs in [0, 100], `calculate_priority_score`
returns a value within [0, 100] and is monotonically non-decreasing in each
of the five components individually, holding the other four fixed. -/
theorem C7_priority_score_range_and_monotone (sev traf den age acc : ℚ)
    (hsev : 0 ≤ sev ∧ sev ≤ 100) (htraf : 0 ≤ traf ∧ traf ≤ 100)
    (hden : 0 ≤ den ∧ den ≤ 100) (hage : 0 ≤ age ∧ age ≤ 100)
    (hacc : 0 ≤ acc ∧ acc ≤ 100) :
    (0 ≤ calculate_priority_score defaultSettings sev traf den age acc ∧
      calculate_priority_score defaultSettings sev traf den age acc ≤ 100) ∧
    (∀ x, sev ≤ x →
      calculate_priority_score defaultSettings sev traf den age acc ≤
        calculate_priority_score defaultSettings x traf den age acc) ∧
    (∀ x, traf ≤ x →
      calculate_priority_score defaultSettings sev traf den age acc ≤
        calculate_priority_score defaultSettings sev x den age acc) ∧
    (∀ x, den ≤ x →
      calculate_priority_score defaultSettings sev traf den age acc ≤
        calculate_priority_score defaultSettings sev traf x age acc) ∧
    (∀ x, age ≤ x →
      calculate_priority_score defaultSettings sev traf den age acc ≤
        calculate_priority_score defaultSettings sev traf den x acc) ∧
    (∀ x, acc ≤ x →
      calculate_priority_score defaultSettings sev traf den age acc ≤
        calculate_priority_score defaultSettings sev traf den age x) := by
  have hmin : defaultSettings.MIN_PRIORITY_SCORE = 0 := rfl
  refine ⟨⟨?_, ?_⟩, ?_, ?_, ?_, ?_, ?_⟩
  · rw [calculate_priority_score, hmin]
    calc (0 : ℚ) = round2 0 := round2_zero.symm
      _ ≤ _ := round2_mono (le_max_left 0 _)
  · rw [calculate_priority_score, hmin]
    calc round2 (max 0 (min 100 (priorityWeightedSum defaultSettings sev traf den age acc)))
        ≤ round2 100 := round2_mono (max_le (by norm_num) (min_le_left _ _))
      _ = 100 := round2_hundred
  · intro x hx
    apply calculate_priority_score_mono
    simp only [priorityWeightedSum, defaultSettings]
    linarith
  · intro x hx
    apply calculate_priority_score_mono
    simp only [priorityWeightedSum, defaultSettings]
    linarith
  · intro x hx
    apply calculate_priority_score_mono
    simp only [priorityWeightedSum, defaultSettings]
    linarith
  · intro x hx
    apply calculate_priority_score_mono
    simp only [priorityWeightedSum, defaultSettings]
    linarith
  · intro x hx
    apply calculate_priority_score_mono
    simp only [priorityWeightedSum, defaultSettings]
    linarith

/-- Witness for C7: the property instantiated at all components equal to 50. -/
theorem C7_witness :
    (0 ≤ calculate_priority_score defaultSettings 50 50 50 50 50 ∧
      calculate_priority_score defaultSettings 50 50 50 50 50 ≤ 100) ∧
    (∀ x, (50 : ℚ) ≤ x →
      calculate_priority_score defaultSettings 50 50 50 50 50 ≤
        calculate_priority_score defaultSettings x 50 50 50 50) ∧
    (∀ x, (50 : ℚ) ≤ x →
      calculate_priority_score defaultSettings 50 50 50 50 50 ≤
        calculate_priority_score defaultSettings 50 x 50 50 50) ∧
    (∀ x, (50 : ℚ) ≤ x →
      calculate_priority_score defaultSettings 50 50 50 50 50 ≤
        calculate_priority_score defaultSettings 50 50 x 50 50) ∧
    (∀ x, (50 : ℚ) ≤ x →
      calculate_priority_score defaultSettings 50 50 50 50 50 ≤
        calculate_priority_score defaultSettings 50 50 50 x 50) ∧
    (∀ x, (50 : ℚ) ≤ x →
      calculate_priority_score defaultSettings 50 50 50 50 50 ≤
        calculate_priority_score defaultSettings 50 50 50 50 x) :=
  C7_priority_score_range_and_monotone 50 50 50 50 50 (by norm_num) (by norm_num)
    (by norm_num) (by norm_num) (by norm_num)

/-- C8: Scenario D — three defects of severities 8, 6 and 7 (ages 0) on a
residential segment of 200 m produce component scores severity 70, traffic
30, density 100, age 0, accessibility 50, a total of 54.5, level MEDIUM and
estimated cost 2550. -/
theorem C8_scenario_d :
    computePriorityFields defaultSettings scenarioD = some scenarioFields :=
  scenarioD_fields

/-- C9 counterexample: configuration loading does not force the five weights
to sum to 1.0 — overriding `WEIGHT_SEVERITY` to 1.0 is accepted and yields a
weight sum of 1.65. -/
theorem C9_counterexample :
    ¬ ∀ ov : SettingsOverrides, weightSum (loadSettings ov) = 1 := by
  intro h
  have := h badOverrides
  norm_num [weightSum, loadSettings, badOverrides] at this

/-- C9 amended: the coded defaults of the five weights sum to 1.0, but
`Settings` declares no validator, so loading never fails and accepts any
override values — for example overriding `WEIGHT_SEVERITY` to 1.0 is
accepted and produces a configuration whose weights sum to 1.65. -/
theorem C9_no_weight_validation :
    weightSum (loadSettings {}) = 1 ∧
      weightSum (loadSettings badOverrides) = 33/20 := by
  constructor
  · norm_num [weightSum, loadSettings]
  · norm_num [weightSum, loadSettings, badOverrides]

/-- C10: `compute_segment_priority` silently defaults every missing field —
severity 5.0, age 0 days, road type "residential" and segment length 100 m
(and road name "Unknown") — so filling those defaults in first changes
nothing; and the traffic, cost and duration factors are taken solely from the
first defect, the tail contributing only severities and ages. -/
theorem C10_defaults_and_first_defect (st : Settings) :
    (∀ defects : List DefectDict,
      computePriorityFields st (defects.map fillDefaults) =
        computePriorityFields st defects) ∧
    (∀ (d : DefectDict) (ds ds' : List DefectDict),
      ds.map (fun x => x.severity_score.getD 5) =
        ds'.map (fun x => x.severity_score.getD 5) →
      ds.map (fun x => x.age_days.getD 0) =
        ds'.map (fun x => x.age_days.getD 0) →
      computePriorityFields st (d :: ds) = computePriorityFields st (d :: ds')) := by
  constructor
  · intro defects
    cases defects with
    | nil => rfl
    | cons d0 rest =>
      have hs : (fun x : DefectDict => x.severity_score.getD 5) ∘ fillDefaults =
          fun x : DefectDict => x.severity_score.getD 5 := by
        funext x; simp [fillDefaults]
      have ha : (fun x : DefectDict => x.age_days.getD 0) ∘ fillDefaults =
          fun x : DefectDict => x.age_days.getD 0 := by
        funext x; simp [fillDefaults]
      simp only [List.map_cons, computePriorityFields, List.map_map, hs, ha,
        List.length_map, List.length_cons, fillDefaults, Option.getD_some]
  · intro d ds ds' h1 h2
    have hlen : ds.length = ds'.length := by
      have := congrArg List.length h1
      simpa using this
    simp only [computePriorityFields, List.map_cons, List.length_cons, h1, h2, hlen]

/-- Witness for C10: a fully missing defect dictionary computes the same with
its defaults filled in, and changing only the road type of a tail defect
leaves the result unchanged. -/
theorem C10_witness :
    computePriorityFields defaultSettings ([dMissing].map fillDefaults) =
      computePriorityFields defaultSettings [dMissing] ∧
    computePriorityFields defaultSettings [dMissing, dTailMotorway] =
      computePriorityFields defaultSettings [dMissing, dTailResidential] :=
  ⟨(C10_defaults_and_first_defect defaultSettings).1 [dMissing],
   (C10_defaults_and_first_defect defaultSettings).2 dMissing
     [dTailMotorway] [dTailResidential] rfl rfl⟩

end RoadSense
